import Mathlib

/-!
Shallow embedding of `src/telegram_bot.py` (class `IVASMSTelegramBot`).

The bot's mutable fields (`is_monitoring`, `last_login_time`,
`last_fetch_time`) are gathered into a `BotState` record.  Timestamps are
modelled as already-formatted strings (the code only ever renders them with
`strftime`).  Each command handler becomes a pure function from its inputs
(admin list, sender chat id, bot state, and the results of the awaited
collaborator calls) to a `CmdResult` recording the replies sent, which
collaborators were touched, whether an exception escaped the handler, and
the state after the call.  A failing `await` is an `Except.error`.
-/

/-- Mutable status fields of the bot (`self.is_monitoring`,
`self.last_login_time`, `self.last_fetch_time`).  Optional timestamps are
kept as their rendered strings. -/
structure BotState where
  is_monitoring : Bool
  last_login_time : Option String
  last_fetch_time : Option String
deriving Repr, DecidableEq

/-- Observable outcome of one handler invocation: the replies sent via
`update.message.reply_text` in order, whether the storage collaborator was
called, whether the log file was opened and read, whether an exception
escaped the handler, and the bot state after the call. -/
structure CmdResult where
  replies : List String
  storageCalled : Bool
  fileRead : Bool
  raised : Bool
  stateAfter : BotState
deriving Repr, DecidableEq

/-- `is_admin`: membership of the chat id in `self.admin_chat_ids`. -/
def is_admin (admin_chat_ids : List Int) (chat_id : Int) : Bool :=
  admin_chat_ids.contains chat_id

/-- The rejection reply sent by the command handlers to non-admin senders. -/
def unauthorizedMsg : String := "❌ Unauthorized access"

/-- `special_chars` from `escape_markdown` (the MarkdownV2 reserved set).
Backtick and the two braces are written via their code points to keep the
file free of those raw characters. -/
def special_chars : List Char :=
  ['_', '*', '[', ']', '(', ')', '~', Char.ofNat 96, '>', '#',
   '+', '-', '=', '|', Char.ofNat 123, Char.ofNat 125, '.', '!']

/-- One round of `text.replace(char, "\\" + char)` for a single-character
pattern: every occurrence of `c` becomes backslash followed by `c`. -/
def replaceChar (c : Char) (text : List Char) : List Char :=
  text.flatMap (fun x => if x = c then ['\\', c] else [x])

/-- `escape_markdown`: the `for char in special_chars` loop of successive
replaces. -/
def escape_markdown (text : List Char) : List Char :=
  special_chars.foldl (fun t c => replaceChar c t) text

/-- Helper naming the same loop over an arbitrary list of patterns, used to
reason about `escape_markdown` by induction on the pattern list. -/
def escAll (cs : List Char) (text : List Char) : List Char :=
  cs.foldl (fun t c => replaceChar c t) text

/-- Per-character form of the sanitizer contract, following the spec's
words: a reserved character is emitted with a backslash prefixed, any other
character is passed through unchanged. -/
def escapeOne (x : Char) : List Char :=
  if x ∈ special_chars then ['\\', x] else [x]

/-- Scan used to state "every reserved character is immediately preceded by
the escape character": `prev` is the character just before the current
position. -/
def escOk (prev : Char) : List Char → Bool
  | [] => true
  | c :: rest => (!(decide (c ∈ special_chars)) || (prev == '\\')) && escOk c rest

/-- A list satisfies the prefixing property when the scan succeeds starting
from a sentinel previous character that is not the backslash. -/
def allReservedPrefixed (l : List Char) : Bool :=
  escOk (Char.ofNat 0) l

/-- Number of characters of a text that are outside the reserved set. -/
def nonReservedCount (t : List Char) : Nat :=
  (t.filter (fun c => decide (c ∉ special_chars))).length

/-- Number of characters of a text that are in the reserved set. -/
def reservedCount (t : List Char) : Nat :=
  (t.filter (fun c => decide (c ∈ special_chars))).length

/-- `_get_uptime`, for a nonnegative elapsed time in whole seconds.
`timedelta.days` is the elapsed seconds divided by 86400 and
`timedelta.seconds` the remainder; the code then splits the remainder with
`divmod(seconds, 3600)` and `divmod(remainder, 60)`. -/
def get_uptime (elapsedSeconds : Nat) : String :=
  let days := elapsedSeconds / 86400
  let seconds := elapsedSeconds % 86400
  let hours := seconds / 3600
  let remainder := seconds % 3600
  let minutes := remainder / 60
  if days > 0 then
    toString days ++ "d " ++ toString hours ++ "h " ++ toString minutes ++ "m"
  else if hours > 0 then
    toString hours ++ "h " ++ toString minutes ++ "m"
  else
    toString minutes ++ "m"

/-- Body text of the `/start` reply for an admin sender. -/
def startText (st : BotState) (chat_id : Int) (uptime : String) : String :=
  "🤖 *iVASMS Telegram Bot*\n\n"
    ++ "Status: " ++ (if st.is_monitoring then "🟢 Running" else "🔴 Stopped") ++ "\n"
    ++ "Uptime: " ++ uptime ++ "\n"
    ++ "Admin Chat ID: `" ++ toString chat_id ++ "`\n\n"
    ++ "Available commands:\n"
    ++ "• `/status` - Bot status\n"
    ++ "• `/config` - Configuration\n"
    ++ "• `/recent_otps` - Recent OTPs\n"
    ++ "• `/last_otp` - Last OTP\n"
    ++ "• `/new_otp` - Force fetch\n"
    ++ "• `/logs` - View logs\n"

/-- `start_command`.  `uptime` stands for the string `self._get_uptime()`
returns at the moment of the call. -/
def start_command (admin_chat_ids : List Int) (chat_id : Int) (st : BotState)
    (uptime : String) : CmdResult :=
  if !(is_admin admin_chat_ids chat_id) then
    ⟨[unauthorizedMsg], false, false, false, st⟩
  else
    ⟨[startText st chat_id uptime], false, false, false, st⟩

/-- Body text of the `/status` reply once the OTP count is available. -/
def statusText (st : BotState) (uptime : String) (otp_count : Nat) : String :=
  "📊 *Bot Status*\n\n"
    ++ "Monitoring: " ++ (if st.is_monitoring then "🟢 Active" else "🔴 Inactive") ++ "\n"
    ++ "Uptime: " ++ uptime ++ "\n"
    ++ (match st.last_login_time with
        | some s => "Last Login: " ++ s ++ "\n"
        | none => "Last Login: Never\n")
    ++ (match st.last_fetch_time with
        | some s => "Last Fetch: " ++ s ++ "\n"
        | none => "Last Fetch: Never\n")
    ++ "Total OTPs: " ++ toString otp_count ++ "\n"

/-- `status_command`.  `countResult` is the outcome of the awaited
`self.storage.get_otp_count()`: the handler has no try/except around it, so
an error escapes the handler and no reply is sent. -/
def status_command (admin_chat_ids : List Int) (chat_id : Int) (st : BotState)
    (uptime : String) (countResult : Except Unit Nat) : CmdResult :=
  if !(is_admin admin_chat_ids chat_id) then
    ⟨[unauthorizedMsg], false, false, false, st⟩
  else
    match countResult with
    | .error _ => ⟨[], true, false, true, st⟩
    | .ok c => ⟨[statusText st uptime c], true, false, false, st⟩

/-- Argument of `/logs` as seen after Python's `int()` conversion: absent,
non-numeric (a `ValueError`), or a parsed integer. -/
inductive LogsArg where
  | noArg
  | nonNumeric
  | numeric (k : Int)
deriving Repr, DecidableEq

/-- Reply text of `/logs` on success; `log_lines` are the tailed lines,
each still carrying its trailing newline as returned by `readlines()`, and
`''.join` concatenates them. -/
def logsReply (log_lines : List String) : String :=
  "📄 *Last " ++ toString log_lines.length ++ " log lines*\n\n```\n"
    ++ String.join log_lines ++ "\n```"

/-- `logs_command`.  `file` is the log sink: `none` when
`os.path.exists(log_file)` is false, otherwise the list of lines
`readlines()` yields.  The Python slice `log_lines[-n:]` with `n ≥ 1` keeps
the last `n` elements, i.e. drops `length - n` from the front. -/
def logs_command (admin_chat_ids : List Int) (chat_id : Int) (st : BotState)
    (arg : LogsArg) (file : Option (List String)) : CmdResult :=
  if !(is_admin admin_chat_ids chat_id) then
    ⟨[unauthorizedMsg], false, false, false, st⟩
  else
    let linesArg : Option Int :=
      match arg with
      | .noArg => some 20
      | .nonNumeric => none
      | .numeric k => some (max 1 (min k 100))
    match linesArg with
    | none => ⟨["❌ Invalid number format"], false, false, false, st⟩
    | some n =>
      match file with
      | none => ⟨["📄 Log file not found"], false, false, false, st⟩
      | some ls =>
        let log_lines := ls.drop (ls.length - n.toNat)
        if log_lines.isEmpty then ⟨["📄 Log file is empty"], false, true, false, st⟩
        else ⟨[logsReply log_lines], false, true, false, st⟩

/-- `handle_message` (non-command text): a non-admin sender gets no reply
at all, an admin gets the fixed hint. -/
def handle_message (admin_chat_ids : List Int) (chat_id : Int) (st : BotState) :
    CmdResult :=
  if !(is_admin admin_chat_ids chat_id) then
    ⟨[], false, false, false, st⟩
  else
    ⟨["ℹ️ Use /start to see available commands"], false, false, false, st⟩

/-- Modelled from the spec: `config_command` is registered in `initialize`
but its body is absent from the source under src/.  Per the spec's AuthGate
contract (every command handler checks `isAuthorized` before doing any
work; on failure it replies exactly the unauthorized rejection, takes no
further action, and leaks nothing), a non-admin sender gets exactly the
unauthorized reply with no collaborator call and no state change; the
admin-branch behavior is unspecified (delegated) and kept abstract as
`adminBranch`. -/
def config_command (admin_chat_ids : List Int) (chat_id : Int) (st : BotState)
    (adminBranch : CmdResult) : CmdResult :=
  if !(is_admin admin_chat_ids chat_id) then
    ⟨[unauthorizedMsg], false, false, false, st⟩
  else adminBranch

/-- Modelled from the spec: `info_command`, registered but absent from
src/; same AuthGate contract as `config_command`, admin branch abstract. -/
def info_command (admin_chat_ids : List Int) (chat_id : Int) (st : BotState)
    (adminBranch : CmdResult) : CmdResult :=
  if !(is_admin admin_chat_ids chat_id) then
    ⟨[unauthorizedMsg], false, false, false, st⟩
  else adminBranch

/-- Modelled from the spec: `recent_otps_command`, registered but absent
from src/; same AuthGate contract, admin branch (a storage query)
abstract. -/
def recent_otps_command (admin_chat_ids : List Int) (chat_id : Int)
    (st : BotState) (adminBranch : CmdResult) : CmdResult :=
  if !(is_admin admin_chat_ids chat_id) then
    ⟨[unauthorizedMsg], false, false, false, st⟩
  else adminBranch

/-- Modelled from the spec: `last_otp_command`, registered but absent from
src/; same AuthGate contract, admin branch (a storage query) abstract. -/
def last_otp_command (admin_chat_ids : List Int) (chat_id : Int)
    (st : BotState) (adminBranch : CmdResult) : CmdResult :=
  if !(is_admin admin_chat_ids chat_id) then
    ⟨[unauthorizedMsg], false, false, false, st⟩
  else adminBranch

/-- Modelled from the spec: `new_otp_command`, registered but absent from
src/; same AuthGate contract, admin branch (a monitor fetch trigger)
abstract. -/
def new_otp_command (admin_chat_ids : List Int) (chat_id : Int)
    (st : BotState) (adminBranch : CmdResult) : CmdResult :=
  if !(is_admin admin_chat_ids chat_id) then
    ⟨[unauthorizedMsg], false, false, false, st⟩
  else adminBranch

/-- Modelled from the spec: `restart_command`, registered but absent from
src/; same AuthGate contract, admin branch (a monitor lifecycle signal)
abstract. -/
def restart_command (admin_chat_ids : List Int) (chat_id : Int)
    (st : BotState) (adminBranch : CmdResult) : CmdResult :=
  if !(is_admin admin_chat_ids chat_id) then
    ⟨[unauthorizedMsg], false, false, false, st⟩
  else adminBranch

/-- Modelled from the spec: `stop_command`, registered but absent from
src/; same AuthGate contract, admin branch (a monitor lifecycle signal)
abstract. -/
def stop_command (admin_chat_ids : List Int) (chat_id : Int) (st : BotState)
    (adminBranch : CmdResult) : CmdResult :=
  if !(is_admin admin_chat_ids chat_id) then
    ⟨[unauthorizedMsg], false, false, false, st⟩
  else adminBranch

/-- Modelled from the spec: `start_monitor_command`, registered but absent
from src/; same AuthGate contract, admin branch (a monitor lifecycle
signal) abstract. -/
def start_monitor_command (admin_chat_ids : List Int) (chat_id : Int)
    (st : BotState) (adminBranch : CmdResult) : CmdResult :=
  if !(is_admin admin_chat_ids chat_id) then
    ⟨[unauthorizedMsg], false, false, false, st⟩
  else adminBranch

/-- Outcome of `send_admin_message`: the chat ids a delivery was attempted
for (in loop order) and the subset for which `bot.send_message` did not
raise. -/
structure BroadcastResult where
  attempted : List Int
  delivered : List Int
deriving Repr, DecidableEq

/-- The `for chat_id in self.admin_chat_ids` loop: each send is attempted
inside its own try/except, a failure (`fails chat_id = true`) is logged and
the loop continues. -/
def broadcastLoop (fails : Int → Bool) : List Int → BroadcastResult
  | [] => ⟨[], []⟩
  | chat_id :: rest =>
    let r := broadcastLoop fails rest
    if fails chat_id then ⟨chat_id :: r.attempted, r.delivered⟩
    else ⟨chat_id :: r.attempted, chat_id :: r.delivered⟩

/-- `send_admin_message`.  `application` is the truthiness of
`self.application`: when it is still `None` the method logs and returns
before the loop.  `message`, `parse_mode` and `disable_notification` do not
influence the control flow. -/
def send_admin_message (application : Bool) (message : String)
    (parse_mode : String) (disable_notification : Bool)
    (admin_chat_ids : List Int) (fails : Int → Bool) : BroadcastResult :=
  if !application then ⟨[], []⟩
  else broadcastLoop fails admin_chat_ids

/-- `send_error_message`: the text handed to `send_admin_message`, built
from the sanitized `str(error)` and the trace blob, which is cut to its
first 500 characters plus `"..."` when longer than 500. -/
def send_error_message (errText : List Char) (stack_trace0 : List Char) :
    List Char :=
  let error_msg := "❌ *Error*\n\n`".toList ++ escape_markdown errText ++ "`".toList
  let stack_trace :=
    if stack_trace0.length > 500 then stack_trace0.take 500 ++ "...".toList
    else stack_trace0
  error_msg ++ "\n\n```\n".toList ++ stack_trace ++ "\n```".toList

/-- Fixed prefix of the error report up to the trace blob, for a given
error text. -/
def errReportHead (errText : List Char) : List Char :=
  "❌ *Error*\n\n`".toList ++ escape_markdown errText ++ "`\n\n```\n".toList

/-- Fixed suffix of the error report after the trace blob. -/
def errReportTail : List Char := "\n```".toList

/-! Helper lemmas about the sanitizer loop. -/

theorem replaceChar_append (c : Char) (a b : List Char) :
    replaceChar c (a ++ b) = replaceChar c a ++ replaceChar c b := by
  simp [replaceChar]

theorem escAll_append (cs : List Char) (a b : List Char) :
    escAll cs (a ++ b) = escAll cs a ++ escAll cs b := by
  induction cs generalizing a b with
  | nil => rfl
  | cons c cs ih =>
    simp only [escAll, List.foldl_cons] at *
    rw [replaceChar_append]
    exact ih _ _

theorem escAll_nil (cs : List Char) : escAll cs [] = [] := by
  induction cs with
  | nil => rfl
  | cons c cs ih => simpa [escAll, replaceChar] using ih

theorem escAll_single_notmem (cs : List Char) (x : Char) (hx : x ∉ cs) :
    escAll cs [x] = [x] := by
  induction cs with
  | nil => rfl
  | cons c cs ih =>
    simp only [List.mem_cons, not_or] at hx
    simp only [escAll, List.foldl_cons, replaceChar, List.flatMap_cons,
      List.flatMap_nil, List.append_nil, if_neg hx.1]
    exact ih hx.2

theorem escape_markdown_single_mem (x : Char) (hx : x ∈ special_chars) :
    escape_markdown [x] = ['\\', x] := by
  fin_cases hx <;> decide

theorem escape_markdown_flatMap (t : List Char) :
    escape_markdown t = t.flatMap escapeOne := by
  induction t with
  | nil => exact escAll_nil special_chars
  | cons x t ih =>
    have h1 : escape_markdown (x :: t) = escape_markdown [x] ++ escape_markdown t := by
      have := escAll_append special_chars [x] t
      simpa [escape_markdown, escAll] using this
    rw [h1, ih, List.flatMap_cons, escapeOne]
    by_cases hx : x ∈ special_chars
    · rw [if_pos hx, escape_markdown_single_mem x hx]
    · rw [if_neg hx]
      have h2 : escape_markdown [x] = [x] := escAll_single_notmem special_chars x hx
      rw [h2]

theorem escOk_flatMap (t : List Char) (prev : Char) :
    escOk prev (t.flatMap escapeOne) = true := by
  induction t generalizing prev with
  | nil => rfl
  | cons x t ih =>
    rw [List.flatMap_cons, escapeOne]
    by_cases hx : x ∈ special_chars
    · rw [if_pos hx]
      have hbs : (decide ('\\' ∈ special_chars)) = false := by decide
      simp only [List.cons_append, List.nil_append, escOk, hbs, Bool.not_false,
        Bool.true_or, Bool.true_and, beq_self_eq_true, Bool.or_true]
      exact ih x
    · rw [if_neg hx]
      have hxd : (decide (x ∈ special_chars)) = false := by simp [hx]
      simp only [List.cons_append, List.nil_append, escOk, hxd, Bool.not_false,
        Bool.true_or, Bool.true_and]
      exact ih x

theorem allReservedPrefixed_escape (t : List Char) :
    allReservedPrefixed (escape_markdown t) = true := by
  rw [escape_markdown_flatMap, allReservedPrefixed]
  exact escOk_flatMap t _

theorem nonReservedCount_append (a b : List Char) :
    nonReservedCount (a ++ b) = nonReservedCount a + nonReservedCount b := by
  simp [nonReservedCount]

theorem count_escape_aux (t : List Char) :
    nonReservedCount (t.flatMap escapeOne) = nonReservedCount t + reservedCount t := by
  induction t with
  | nil => rfl
  | cons x t ih =>
    rw [List.flatMap_cons, nonReservedCount_append, ih]
    by_cases hx : x ∈ special_chars
    · have hesc : escapeOne x = ['\\', x] := by rw [escapeOne, if_pos hx]
      have hbp : '\\' ∉ special_chars := by decide
      have h1 : nonReservedCount (escapeOne x) = 1 := by
        rw [hesc]
        simp [nonReservedCount, hx, hbp]
      have h2 : nonReservedCount (x :: t) = nonReservedCount t := by
        simp [nonReservedCount, hx]
      have h3 : reservedCount (x :: t) = reservedCount t + 1 := by
        simp [reservedCount, hx]
      omega
    · have hesc : escapeOne x = [x] := by rw [escapeOne, if_neg hx]
      have h1 : nonReservedCount (escapeOne x) = 1 := by
        rw [hesc]
        simp [nonReservedCount, hx]
      have h2 : nonReservedCount (x :: t) = nonReservedCount t + 1 := by
        simp [nonReservedCount, hx]
      have h3 : reservedCount (x :: t) = reservedCount t := by
        simp [reservedCount, hx]
      omega

/-! Helper lemmas about broadcast, tailing, uptime and truncation. -/

theorem broadcastLoop_spec (fails : Int → Bool) (admins : List Int) :
    (broadcastLoop fails admins).attempted = admins ∧
    (broadcastLoop fails admins).delivered = admins.filter (fun c => !(fails c)) := by
  induction admins with
  | nil => exact ⟨rfl, rfl⟩
  | cons c rest ih =>
    by_cases hc : fails c = true
    · simp [broadcastLoop, hc, ih.1, ih.2, List.filter_cons]
    · simp only [Bool.not_eq_true] at hc
      simp [broadcastLoop, hc, ih.1, ih.2, List.filter_cons]

theorem tail_len (ls : List String) (m : Nat) :
    (ls.drop (ls.length - m)).length = min m ls.length := by
  rw [List.length_drop]
  omega

theorem up_fmt1 (s : Nat) (hd : 0 < s / 86400) :
    get_uptime s = toString (s / 86400) ++ "d " ++ toString (s % 86400 / 3600)
      ++ "h " ++ toString (s % 86400 % 3600 / 60) ++ "m" := by
  simp only [get_uptime]
  rw [if_pos hd]

theorem up_fmt2 (s : Nat) (hd : s / 86400 = 0) (hh : 0 < s % 86400 / 3600) :
    get_uptime s = toString (s % 86400 / 3600) ++ "h "
      ++ toString (s % 86400 % 3600 / 60) ++ "m" := by
  simp only [get_uptime]
  rw [if_neg (by omega), if_pos hh]

theorem up_fmt3 (s : Nat) (hd : s / 86400 = 0) (hh : s % 86400 / 3600 = 0) :
    get_uptime s = toString (s % 86400 % 3600 / 60) ++ "m" := by
  simp only [get_uptime]
  rw [if_neg (by omega), if_neg (by omega)]

theorem send_error_message_eq (err tr : List Char) :
    send_error_message err tr
      = errReportHead err
        ++ (if 500 < tr.length then tr.take 500 ++ "...".toList else tr)
        ++ errReportTail := by
  have hjoin : ("`".toList : List Char) ++ "\n\n```\n".toList = "`\n\n```\n".toList := by
    decide
  simp only [send_error_message, errReportHead, errReportTail, gt_iff_lt]
  rw [← hjoin]
  simp [List.append_assoc]

/-! Claim theorems. -/

/-- C1 counterexample: with the storage count call failing, `/status` from
an admin sender produces no reply at all and the exception escapes the
handler — there is no degraded snapshot with an "unknown" count. -/
theorem status_count_failure_cex :
    is_admin [1] 1 = true
    ∧ (status_command [1] 1 (BotState.mk false none none) "0m"
        (Except.error ())).replies = []
    ∧ (status_command [1] 1 (BotState.mk false none none) "0m"
        (Except.error ())).raised = true := by
  decide

/-- C1 (amended): when the storage collaborator's count call fails during
`/status` for an admin sender, the handler sends no reply and the failure
propagates out of the handler; on a successful count the reply is the full
snapshot text. -/
theorem status_count_failure_propagates (admins : List Int) (chat : Int)
    (st : BotState) (uptime : String) (c : Nat)
    (h : is_admin admins chat = true) :
    status_command admins chat st uptime (Except.error ())
      = ⟨[], true, false, true, st⟩
    ∧ status_command admins chat st uptime (Except.ok c)
      = ⟨[statusText st uptime c], true, false, false, st⟩ := by
  constructor
  · simp [status_command, h]
  · simp [status_command, h]

/-- C1 witness. -/
theorem status_count_failure_propagates_witness :
    status_command [1] 1 (BotState.mk false none none) "0m" (Except.error ())
      = ⟨[], true, false, true, BotState.mk false none none⟩
    ∧ status_command [1] 1 (BotState.mk false none none) "0m" (Except.ok 7)
      = ⟨[statusText (BotState.mk false none none) "0m" 7], true, false, false,
          BotState.mk false none none⟩ :=
  status_count_failure_propagates [1] 1 (BotState.mk false none none) "0m" 7
    (by decide)

/-- C2 counterexample: a non-command text message from a sender outside the
admin set is dropped silently — `handle_message` sends no reply at all, not
the unauthorized-rejection message. -/
theorem handle_message_nonadmin_cex :
    is_admin [1] 2 = false
    ∧ (handle_message [1] 2 (BotState.mk false none none)).replies = []
    ∧ (handle_message [1] 2 (BotState.mk false none none)).replies
        ≠ [unauthorizedMsg] := by
  decide

/-- C2 (amended): for a sender outside the admin set, every registered
command handler — `/start`, `/status`, `/logs` from the source, and the
eight handlers registered in `initialize` whose bodies are absent from
src/ and are modelled from the spec's AuthGate contract (`/config`,
`/info`, `/recent_otps`, `/last_otp`, `/new_otp`, `/restart`, `/stop`,
`/start_monitor`, each with an arbitrary admin branch `b`) — replies with
exactly the unauthorized message, calls no collaborator, reads no file,
raises nothing and leaves the state unchanged; a non-command text message,
however, is dropped with no reply at all (also with no collaborator call
and no state change). -/
theorem nonadmin_handlers_no_action (admins : List Int) (chat : Int)
    (st : BotState) (uptime : String) (countRes : Except Unit Nat)
    (arg : LogsArg) (file : Option (List String)) (b : CmdResult)
    (h : is_admin admins chat = false) :
    start_command admins chat st uptime
      = ⟨[unauthorizedMsg], false, false, false, st⟩
    ∧ status_command admins chat st uptime countRes
      = ⟨[unauthorizedMsg], false, false, false, st⟩
    ∧ logs_command admins chat st arg file
      = ⟨[unauthorizedMsg], false, false, false, st⟩
    ∧ config_command admins chat st b
      = ⟨[unauthorizedMsg], false, false, false, st⟩
    ∧ info_command admins chat st b
      = ⟨[unauthorizedMsg], false, false, false, st⟩
    ∧ recent_otps_command admins chat st b
      = ⟨[unauthorizedMsg], false, false, false, st⟩
    ∧ last_otp_command admins chat st b
      = ⟨[unauthorizedMsg], false, false, false, st⟩
    ∧ new_otp_command admins chat st b
      = ⟨[unauthorizedMsg], false, false, false, st⟩
    ∧ restart_command admins chat st b
      = ⟨[unauthorizedMsg], false, false, false, st⟩
    ∧ stop_command admins chat st b
      = ⟨[unauthorizedMsg], false, false, false, st⟩
    ∧ start_monitor_command admins chat st b
      = ⟨[unauthorizedMsg], false, false, false, st⟩
    ∧ handle_message admins chat st = ⟨[], false, false, false, st⟩ := by
  refine ⟨?_, ?_, ?_, ?_, ?_, ?_, ?_, ?_, ?_, ?_, ?_, ?_⟩ <;>
    simp [start_command, status_command, logs_command, config_command,
      info_command, recent_otps_command, last_otp_command, new_otp_command,
      restart_command, stop_command, start_monitor_command, handle_message, h]

/-- C2 witness. -/
theorem nonadmin_handlers_no_action_witness :
    start_command [1] 2 (BotState.mk false none none) "0m"
      = ⟨[unauthorizedMsg], false, false, false, BotState.mk false none none⟩
    ∧ status_command [1] 2 (BotState.mk false none none) "0m" (Except.error ())
      = ⟨[unauthorizedMsg], false, false, false, BotState.mk false none none⟩
    ∧ logs_command [1] 2 (BotState.mk false none none) LogsArg.noArg none
      = ⟨[unauthorizedMsg], false, false, false, BotState.mk false none none⟩
    ∧ config_command [1] 2 (BotState.mk false none none)
        ⟨[], false, false, false, BotState.mk false none none⟩
      = ⟨[unauthorizedMsg], false, false, false, BotState.mk false none none⟩
    ∧ info_command [1] 2 (BotState.mk false none none)
        ⟨[], false, false, false, BotState.mk false none none⟩
      = ⟨[unauthorizedMsg], false, false, false, BotState.mk false none none⟩
    ∧ recent_otps_command [1] 2 (BotState.mk false none none)
        ⟨[], false, false, false, BotState.mk false none none⟩
      = ⟨[unauthorizedMsg], false, false, false, BotState.mk false none none⟩
    ∧ last_otp_command [1] 2 (BotState.mk false none none)
        ⟨[], false, false, false, BotState.mk false none none⟩
      = ⟨[unauthorizedMsg], false, false, false, BotState.mk false none none⟩
    ∧ new_otp_command [1] 2 (BotState.mk false none none)
        ⟨[], false, false, false, BotState.mk false none none⟩
      = ⟨[unauthorizedMsg], false, false, false, BotState.mk false none none⟩
    ∧ restart_command [1] 2 (BotState.mk false none none)
        ⟨[], false, false, false, BotState.mk false none none⟩
      = ⟨[unauthorizedMsg], false, false, false, BotState.mk false none none⟩
    ∧ stop_command [1] 2 (BotState.mk false none none)
        ⟨[], false, false, false, BotState.mk false none none⟩
      = ⟨[unauthorizedMsg], false, false, false, BotState.mk false none none⟩
    ∧ start_monitor_command [1] 2 (BotState.mk false none none)
        ⟨[], false, false, false, BotState.mk false none none⟩
      = ⟨[unauthorizedMsg], false, false, false, BotState.mk false none none⟩
    ∧ handle_message [1] 2 (BotState.mk false none none)
      = ⟨[], false, false, false, BotState.mk false none none⟩ :=
  nonadmin_handlers_no_action [1] 2 (BotState.mk false none none) "0m"
    (Except.error ()) LogsArg.noArg none
    ⟨[], false, false, false, BotState.mk false none none⟩ (by decide)

/-- C3 counterexample: the integer argument 500 lies outside [1,100], yet
`/logs 500` from an admin is not rejected with a format error: the log file
is read (with the clamped value) and a tail reply is produced. -/
theorem logs_out_of_range_not_rejected_cex :
    is_admin [1] 1 = true
    ∧ (logs_command [1] 1 (BotState.mk false none none) (LogsArg.numeric 500)
        (some ["line one\n"])).fileRead = true
    ∧ (logs_command [1] 1 (BotState.mk false none none) (LogsArg.numeric 500)
        (some ["line one\n"])).replies ≠ ["❌ Invalid number format"] := by
  decide

/-- C3 (amended): an integer `/logs` argument is clamped into [1,100]
(values outside the range are not rejected: the handler behaves exactly as
if the clamped value had been given, and the clamped value is in range);
only a non-numeric argument is rejected with the format-error reply, in
which case the log file is not read. -/
theorem logs_arg_clamped_not_rejected (admins : List Int) (chat : Int)
    (st : BotState) (k : Int) (file : Option (List String))
    (h : is_admin admins chat = true) :
    logs_command admins chat st (LogsArg.numeric k) file
      = logs_command admins chat st (LogsArg.numeric (max 1 (min k 100))) file
    ∧ 1 ≤ max 1 (min k 100)
    ∧ max 1 (min k 100) ≤ 100
    ∧ logs_command admins chat st LogsArg.nonNumeric file
      = ⟨["❌ Invalid number format"], false, false, false, st⟩ := by
  have hcl : max 1 (min (max 1 (min k 100)) 100) = max 1 (min k 100) := by
    omega
  refine ⟨?_, by omega, by omega, ?_⟩
  · simp [logs_command, h, hcl]
  · simp [logs_command, h]

/-- C3 witness. -/
theorem logs_arg_clamped_not_rejected_witness :
    logs_command [1] 1 (BotState.mk false none none) (LogsArg.numeric 500)
        (some ["a\n"])
      = logs_command [1] 1 (BotState.mk false none none)
          (LogsArg.numeric (max 1 (min 500 100))) (some ["a\n"])
    ∧ (1:Int) ≤ max 1 (min 500 100)
    ∧ (max 1 (min (500:Int) 100)) ≤ 100
    ∧ logs_command [1] 1 (BotState.mk false none none) LogsArg.nonNumeric
        (some ["a\n"])
      = ⟨["❌ Invalid number format"], false, false, false,
          BotState.mk false none none⟩ :=
  logs_arg_clamped_not_rejected [1] 1 (BotState.mk false none none) 500
    (some ["a\n"]) (by decide)

/-- C4 counterexample: for the input "." the output of `escape_markdown` is
a backslash followed by the dot; the backslash is not in the reserved set,
so the output has one non-reserved character while the input has none. -/
theorem escape_nonreserved_count_cex :
    nonReservedCount (escape_markdown ['.']) = 1
    ∧ nonReservedCount ['.'] = 0 := by
  decide

/-- C4 (amended): `escape_markdown` does not keep the number of
non-reserved characters equal between input and output; instead the output
contains exactly one additional non-reserved character (the inserted
backslash) per reserved character of the input: the non-reserved count of
the output equals the non-reserved count of the input plus the reserved
count of the input. -/
theorem escape_nonreserved_count (t : List Char) :
    nonReservedCount (escape_markdown t) = nonReservedCount t + reservedCount t := by
  rw [escape_markdown_flatMap]
  exact count_escape_aux t

/-- C5: `_get_uptime` decomposes the elapsed seconds into whole days, hours
in [0,24), minutes in [0,60), discarding the leftover seconds, and formats
the result as "{d}d {h}h {m}m" when days are positive, "{h}h {m}m" when
days are zero and hours positive, and "{m}m" otherwise; the spec's boundary
table holds. -/
theorem get_uptime_spec (s : Nat) :
    s % 86400 / 3600 < 24
    ∧ s % 86400 % 3600 / 60 < 60
    ∧ s % 60 < 60
    ∧ (s / 86400) * 86400 + (s % 86400 / 3600) * 3600
        + (s % 86400 % 3600 / 60) * 60 + s % 60 = s
    ∧ (0 < s / 86400 →
        get_uptime s = toString (s / 86400) ++ "d " ++ toString (s % 86400 / 3600)
          ++ "h " ++ toString (s % 86400 % 3600 / 60) ++ "m")
    ∧ (s / 86400 = 0 → 0 < s % 86400 / 3600 →
        get_uptime s = toString (s % 86400 / 3600) ++ "h "
          ++ toString (s % 86400 % 3600 / 60) ++ "m")
    ∧ (s / 86400 = 0 → s % 86400 / 3600 = 0 →
        get_uptime s = toString (s % 86400 % 3600 / 60) ++ "m")
    ∧ get_uptime 0 = "0m" ∧ get_uptime 59 = "0m" ∧ get_uptime 60 = "1m"
    ∧ get_uptime 3599 = "59m" ∧ get_uptime 3600 = "1h 0m"
    ∧ get_uptime 90000 = "1d 1h 0m" := by
  refine ⟨by omega, by omega, by omega, by omega, up_fmt1 s, up_fmt2 s,
    up_fmt3 s, by decide, by decide, by decide, by decide, by decide, by decide⟩

/-- C5 witness. -/
theorem get_uptime_spec_witness :
    get_uptime 90000 = toString (90000 / 86400) ++ "d "
      ++ toString (90000 % 86400 / 3600) ++ "h "
      ++ toString (90000 % 86400 % 3600 / 60) ++ "m"
    ∧ get_uptime 3600 = toString (3600 % 86400 / 3600) ++ "h "
      ++ toString (3600 % 86400 % 3600 / 60) ++ "m"
    ∧ get_uptime 59 = toString (59 % 86400 % 3600 / 60) ++ "m" :=
  ⟨(get_uptime_spec 90000).2.2.2.2.1 (by decide),
   (get_uptime_spec 3600).2.2.2.2.2.1 (by decide) (by decide),
   (get_uptime_spec 59).2.2.2.2.2.2.1 (by decide) (by decide)⟩

/-- C6: for an admin sender and an in-range line count, `/logs` replies
"not found" when the log file does not exist, "empty" when it exists with
zero lines, and otherwise replies with exactly the tail
`ls.drop (ls.length - n)` — a contiguous suffix of the file of length
`min n totalLines`, hence the last lines in their original order. -/
theorem logs_tail_semantics (admins : List Int) (chat : Int) (st : BotState)
    (n : Int) (h : is_admin admins chat = true) (hn1 : 1 ≤ n) (hn2 : n ≤ 100) :
    (logs_command admins chat st (LogsArg.numeric n) none).replies
      = ["📄 Log file not found"]
    ∧ (logs_command admins chat st (LogsArg.numeric n) (some [])).replies
      = ["📄 Log file is empty"]
    ∧ ∀ ls : List String, ls ≠ [] →
        (logs_command admins chat st (LogsArg.numeric n) (some ls)).replies
          = [logsReply (ls.drop (ls.length - n.toNat))]
        ∧ (ls.drop (ls.length - n.toNat)).length = min n.toNat ls.length
        ∧ List.IsSuffix (ls.drop (ls.length - n.toNat)) ls := by
  have hcl : max 1 (min n 100) = n := by omega
  refine ⟨?_, ?_, ?_⟩
  · simp [logs_command, h, hcl]
  · simp [logs_command, h, hcl]
  · intro ls hls
    have hlen : (ls.drop (ls.length - n.toNat)).length = min n.toNat ls.length :=
      tail_len ls n.toNat
    have hlpos : 0 < ls.length := List.length_pos.mpr hls
    have hne : (ls.drop (ls.length - n.toNat)).isEmpty = false := by
      cases hdrop : ls.drop (ls.length - n.toNat) with
      | nil =>
        rw [hdrop] at hlen
        simp only [List.length_nil] at hlen
        omega
      | cons a as => rfl
    refine ⟨?_, hlen, List.drop_suffix _ _⟩
    simp [logs_command, h, hcl, hne]

/-- C6 witness. -/
theorem logs_tail_semantics_witness :
    (logs_command [1] 1 (BotState.mk false none none) (LogsArg.numeric 20)
        none).replies = ["📄 Log file not found"]
    ∧ (logs_command [1] 1 (BotState.mk false none none) (LogsArg.numeric 20)
        (some [])).replies = ["📄 Log file is empty"]
    ∧ (logs_command [1] 1 (BotState.mk false none none) (LogsArg.numeric 20)
        (some ["a\n", "b\n", "c\n", "d\n", "e\n"])).replies
      = [logsReply (List.drop (["a\n", "b\n", "c\n", "d\n", "e\n"].length
          - (20:Int).toNat) ["a\n", "b\n", "c\n", "d\n", "e\n"])] := by
  have h := logs_tail_semantics [1] 1 (BotState.mk false none none) 20
    (by decide) (by decide) (by decide)
  exact ⟨h.1, h.2.1, (h.2.2 ["a\n", "b\n", "c\n", "d\n", "e\n"] (by decide)).1⟩

/-- C7: `escape_markdown` acts per character — reserved characters come out
prefixed with a backslash and all other characters (newlines included)
pass through unchanged — so in the output every reserved character is
immediately preceded by the escape character, the empty string maps to the
empty string, and a leading newline is preserved untouched. -/
theorem escape_markdown_contract (t : List Char) :
    escape_markdown t = t.flatMap escapeOne
    ∧ allReservedPrefixed (escape_markdown t) = true
    ∧ escape_markdown [] = []
    ∧ escape_markdown ('\n' :: t) = '\n' :: escape_markdown t := by
  refine ⟨escape_markdown_flatMap t, allReservedPrefixed_escape t,
    escAll_nil special_chars, ?_⟩
  rw [escape_markdown_flatMap, escape_markdown_flatMap, List.flatMap_cons]
  have hnl : escapeOne '\n' = ['\n'] := by decide
  rw [hnl]
  rfl

/-- C8: with the application initialized, `send_admin_message` attempts
delivery to every configured admin in order regardless of which deliveries
fail, and exactly the non-failing recipients receive the message; in
particular with admins [1,2,3] and recipient 2 failing, 1 and 3 are still
attempted and delivered. -/
theorem send_admin_message_partial_delivery (message parse_mode : String)
    (silent : Bool) (admins : List Int) (fails : Int → Bool) :
    (send_admin_message true message parse_mode silent admins fails).attempted
      = admins
    ∧ (send_admin_message true message parse_mode silent admins fails).delivered
      = admins.filter (fun c => !(fails c))
    ∧ (send_admin_message true message parse_mode silent [1, 2, 3]
        (fun c => c == 2)).attempted = [1, 2, 3]
    ∧ (send_admin_message true message parse_mode silent [1, 2, 3]
        (fun c => c == 2)).delivered = [1, 3] := by
  have hgen := broadcastLoop_spec fails admins
  have hex := broadcastLoop_spec (fun c => c == 2) [1, 2, 3]
  refine ⟨?_, ?_, ?_, ?_⟩
  · simpa [send_admin_message] using hgen.1
  · simpa [send_admin_message] using hgen.2
  · simpa [send_admin_message] using hex.1
  · have : ([1, 2, 3].filter (fun c : Int => !(c == 2))) = [1, 3] := by decide
    simpa [send_admin_message, this] using hex.2

/-- C9: in the error report built by `send_error_message`, the trace blob
appears verbatim between the fixed head and tail when it has at most 500
characters, and otherwise is cut to exactly its first 500 characters with
the "..." marker appended; a 1000-character trace is cut to 500 plus the
marker. -/
theorem send_error_trace_truncation (err tr : List Char) :
    send_error_message err tr
      = errReportHead err
        ++ (if 500 < tr.length then tr.take 500 ++ "...".toList else tr)
        ++ errReportTail
    ∧ send_error_message err (List.replicate 1000 'x')
      = errReportHead err ++ (List.replicate 500 'x' ++ "...".toList)
        ++ errReportTail := by
  refine ⟨send_error_message_eq err tr, ?_⟩
  rw [send_error_message_eq]
  have h1 : (500:Nat) < (List.replicate 1000 'x').length := by
    rw [List.length_replicate]; norm_num
  rw [if_pos h1, List.take_replicate]
  norm_num

/-- C10: when the bot application is not yet initialized,
`send_admin_message` returns without attempting delivery to any recipient,
for every message, parse mode, notification flag, admin list and transport
behavior. -/
theorem send_admin_message_uninitialized_noop (message parse_mode : String)
    (silent : Bool) (admins : List Int) (fails : Int → Bool) :
    send_admin_message false message parse_mode silent admins fails
      = ⟨[], []⟩ :=
  rfl
